import Mathlib

/-!
Shallow embedding of the CAN SLIM screener/backtester core
(`utils.py`, `app.py`), with theorems checking the specification's
claims against it.  Prices and monetary amounts are modelled as
rationals; `None`-able numeric fields of the Python dicts are
modelled as `Option ℚ`; code that can raise is modelled with
`Except String`.
-/

namespace CanSlim

/-- One trading session bar, as stored in `stock_data.json` under `hist`
(utils.py `fetch_single_stock`): Open, High, Low, Close, Volume.  The
date is irrelevant to every scoring/backtesting computation and is
omitted. -/
structure Bar where
  Open : ℚ
  High : ℚ
  Low : ℚ
  Close : ℚ
  Volume : ℚ
deriving Repr, DecidableEq

/-- The per-ticker fundamentals dict built in `fetch_single_stock`
(utils.py lines 60-69).  Numeric fields coming from yfinance may be
`None`; `Option` models that. -/
structure Fundamentals where
  eps_growth : Option ℚ
  roe : Option ℚ
  market_cap : Option ℚ
  sector : String
  pe_ratio : Option ℚ
  price : Option ℚ
  fiftyTwoWeekHigh : Option ℚ
  twoHundredDayAverage : Option ℚ
deriving Repr, DecidableEq

/-- Python truthiness of an optional numeric value: `None` and `0` are
falsy, everything else truthy (used by `fund.get(k, 0) and ...` in
`calculate_score`). -/
def truthy : Option ℚ → Bool
  | none => false
  | some v => v != 0

/-- utils.py lines 140-141: `+40` when `fund.get("eps_growth", 0)` is
truthy and `fund["eps_growth"] > 0.25`. -/
def epsPoints (fund : Fundamentals) : ℕ :=
  match fund.eps_growth with
  | none => 0
  | some v => if v ≠ 0 ∧ v > 25 / 100 then 40 else 0

/-- utils.py lines 142-143: `+30` when `fund.get("roe", 0)` is truthy
and `fund["roe"] > 0.17`. -/
def roePoints (fund : Fundamentals) : ℕ :=
  match fund.roe with
  | none => 0
  | some v => if v ≠ 0 ∧ v > 17 / 100 then 30 else 0

/-- utils.py lines 144-148: when `fund.get("market_cap", 0)` is truthy,
`+10` above 10e9, else `+5` above 2e9. -/
def capPoints (fund : Fundamentals) : ℕ :=
  match fund.market_cap with
  | none => 0
  | some v =>
    if v ≠ 0 then
      if v > 10000000000 then 10
      else if v > 2000000000 then 5
      else 0
    else 0

/-- utils.py lines 139-148: the fundamental sub-score `f_score`. -/
def f_score (fund : Fundamentals) : ℕ :=
  epsPoints fund + roePoints fund + capPoints fund

/-- Arithmetic mean of the final `n` entries of a series, `none` when
fewer than `n` entries exist.  Models `rolling(n).mean()` /
`bt.indicators.SMA(..., period=n)` at the latest index (current bar
included). -/
def smaLast (n : ℕ) (xs : List ℚ) : Option ℚ :=
  if n = 0 ∨ xs.length < n then none
  else some ((xs.drop (xs.length - n)).sum / n)

/-- Maximum of the final `n` entries of a series, `none` when fewer
than `n` entries exist.  Models `rolling(n).max()` /
`bt.indicators.Highest(..., period=n)` at the latest index (current
bar included). -/
def highestLast (n : ℕ) (xs : List ℚ) : Option ℚ :=
  if n = 0 ∨ xs.length < n then none
  else (xs.drop (xs.length - n)).max?

/-- Exponential smoothing `e ← alpha*x + (1-alpha)*e` folded over a
series from a seed; building block for the RSI / MACD models. -/
def smoothFrom (alpha : ℚ) : ℚ → List ℚ → ℚ
  | e, [] => e
  | e, x :: xs => smoothFrom alpha (alpha * x + (1 - alpha) * e) xs

/-- Exponentially smoothed series (one output per input), seeded at the
first value; models the exponential moving averages used by
`pandas_ta`. -/
def emaSeries (alpha : ℚ) : List ℚ → List ℚ
  | [] => []
  | x :: xs => go alpha x xs
where
  go (alpha e : ℚ) : List ℚ → List ℚ
    | [] => [e]
    | y :: ys => e :: go alpha (alpha * y + (1 - alpha) * e) ys

/-- Bar-to-bar close differences (`diff()` of the close series). -/
def diffs (closes : List ℚ) : List ℚ :=
  List.zipWith (fun a b => a - b) closes.tail closes

/-- Wilder RSI at the latest index: 100·avgGain/(avgGain+avgLoss) with
both averages smoothed at `alpha = 1/length` (Wilder's RMA), seeded at
the first gain/loss; models `pandas_ta.rsi(close, length)` at the last
row.  `none` when fewer than two closes exist. -/
def rsiLast (length : ℕ) (closes : List ℚ) : Option ℚ :=
  match diffs closes with
  | [] => none
  | d :: ds =>
    let alpha : ℚ := 1 / length
    let avgGain := smoothFrom alpha (max d 0) (ds.map (fun x => max x 0))
    let avgLoss := smoothFrom alpha (max (-d) 0) (ds.map (fun x => max (-x) 0))
    some (100 * avgGain / (avgGain + avgLoss))

/-- MACD line series: EMA(12) − EMA(26) of the closes, pointwise;
models the `MACD_12_26_9` column of `pandas_ta.macd`. -/
def macdSeries (closes : List ℚ) : List ℚ :=
  List.zipWith (fun a b => a - b) (emaSeries (2 / 13) closes) (emaSeries (2 / 27) closes)

/-- MACD line at the latest index. -/
def macdLast (closes : List ℚ) : Option ℚ :=
  (macdSeries closes).getLast?

/-- MACD signal line (EMA(9) of the MACD line) at the latest index;
models the `MACDs_12_26_9` column of `pandas_ta.macd` at the last
row. -/
def macdSignalLast (closes : List ℚ) : Option ℚ :=
  (emaSeries (2 / 10) (macdSeries closes)).getLast?

/-- A float comparison against a possibly-NaN operand: pandas yields
`False` when the right operand is NaN (modelled by `none`). -/
def ltOpt (x : ℚ) (y : Option ℚ) : Bool :=
  match y with
  | none => false
  | some v => decide (x < v)

/-- utils.py lines 151-161: the technical sub-score `t_score`, given
the indicator values at the latest and previous rows (`none` models a
NaN cell, whose comparisons are all `False`). -/
def t_score (rsiL rsiP macdL macdS sma200 : Option ℚ) (close : ℚ)
    (fund : Fundamentals) : ℕ :=
  let rsiPts :=
    match rsiL, rsiP with
    | some a, some b => if a < 70 ∧ b < 70 ∧ a > b then 20 else 0
    | _, _ => 0
  let macdPts :=
    match macdL, macdS with
    | some m, some s => if m > s then 20 else 0
    | _, _ => 0
  let smaPts :=
    match sma200 with
    | some s => if close > s then 20 else 0
    | none => 0
  let highPts :=
    if truthy fund.fiftyTwoWeekHigh ∧ truthy fund.price ∧
        fund.price.getD 0 ≥ 95 / 100 * fund.fiftyTwoWeekHigh.getD 0 then 20 else 0
  rsiPts + macdPts + smaPts + highPts

/-- A per-ticker entry of `stock_data.json` as handed to
`calculate_score`: a Python dict that may lack the `hist` or
`fundamentals` key (reading a missing key raises `KeyError`). -/
structure StockData where
  hist : Option (List Bar)
  fundamentals : Option Fundamentals

/-- One line of the error log written by `log_error(ticker, message)`
(utils.py lines 21-25). -/
structure LogEntry where
  ticker : String
  message : String
deriving Repr, DecidableEq

/-- The body of `calculate_score` (utils.py lines 124-164), i.e. the
code inside its `try`: read `data['fundamentals']` and `data['hist']`
(a missing key raises), short-circuit to `(0,0,0)` below 200 bars,
otherwise compute the fundamental and technical sub-scores on the two
most recent rows and return `(total, f_score, t_score)`. -/
def scoreBody (data : StockData) : Except String (ℕ × ℕ × ℕ) :=
  match data.fundamentals with
  | none => Except.error "KeyError: fundamentals"
  | some fund =>
    match data.hist with
    | none => Except.error "KeyError: hist"
    | some hist =>
      if hist.length < 200 then
        Except.ok (0, 0, 0)
      else
        let closes := hist.map Bar.Close
        let fs := f_score fund
        let ts := t_score (rsiLast 14 closes) (rsiLast 14 closes.dropLast)
          (macdLast closes) (macdSignalLast closes) (smaLast 200 closes)
          ((closes.getLast?).getD 0) fund
        Except.ok (fs + ts, fs, ts)

/-- utils.py lines 121-167: `calculate_score` with its `try/except`.
Any exception from the body is caught and turned into the result
`(0,0,0)` plus an error-log line; note the log call at line 166 is
`log_error("N/A", f"Error in calculate_score: {e}")`, keyed by the
literal string `N/A` (the function does not receive the ticker). -/
def calculate_score (data : StockData) : (ℕ × ℕ × ℕ) × Option LogEntry :=
  match scoreBody data with
  | Except.ok r => (r, none)
  | Except.error e => ((0, 0, 0), some ⟨"N/A", "Error in calculate_score: " ++ e⟩)

/-- What `CANSLIMStrategy.next` decides at one bar: submit a buy order,
submit a sell order, or do nothing. -/
inductive StratAction
  | buyOrder
  | sellOrder
  | noAction
deriving Repr, DecidableEq

/-- The strategy's per-instrument state as `next` reads it:
`self.position` truthiness, `self.buy_price` (set by `notify_order`
when a buy completes), and whether `self.order` is pending. -/
structure StratState where
  hasPosition : Bool
  buy_price : ℚ
  orderPending : Bool
deriving Repr, DecidableEq

/-- utils.py lines 190-201: `CANSLIMStrategy.next`, given the current
values of the close line, `self.sma_200` (SMA of the close, period
200) and `self.highest_high` (Highest of the close, period 252).  Note
the second exit test at line 200 compares the close against the close
itself times `(1 - trail_percent)`; no high-water-mark is tracked
anywhere in the class. -/
def canslimNext (st : StratState) (close sma200 highest252 : ℚ)
    (stop_loss_percent trail_percent : ℚ) : StratAction :=
  if st.orderPending then .noAction
  else if ¬ st.hasPosition then
    if close > sma200 ∧ close ≥ highest252 then .buyOrder else .noAction
  else if close ≤ st.buy_price * (1 - stop_loss_percent) then .sellOrder
  else if close ≤ close * (1 - trail_percent) then .sellOrder
  else .noAction

/-- The strategy's entry decision over a whole close series, evaluated
at the latest bar: utils.py wires `sma_200 = SMA(close, 200)` and
`highest_high = Highest(close, 252)` (lines 178-180) into `next`;
backtrader only calls `next` once every indicator has its minimum
period, modelled by the `none` fall-through. -/
def entrySignalAt (closes : List ℚ) : Bool :=
  match closes.getLast?, smaLast 200 closes, highestLast 252 closes with
  | some c, some s, some h =>
    decide (canslimNext ⟨false, 0, false⟩ c s h (7 / 100) (1 / 10) = .buyOrder)
  | _, _, _ => false

/-- The FLAT→LONG condition as the specification words it: close above
SMA(200) of the closes and at or above the ROLLING HIGH, the maximum
of the bars' HIGH values over the trailing 252 bars. -/
def entrySignalSpecHighs (closes highs : List ℚ) : Bool :=
  match closes.getLast?, smaLast 200 closes, highestLast 252 highs with
  | some c, some s, some h => decide (c > s ∧ c ≥ h)
  | _, _, _ => false

/-- The LONG→FLAT exit condition as the specification words it: hard
stop at entry×(1−0.07), or trailing stop at high-water-mark×(1−0.10)
where the high-water-mark is the highest close observed since
entry. -/
def specLongExit (entry_price hwm close : ℚ) : Bool :=
  decide (close ≤ entry_price * (1 - 7 / 100)) || decide (close ≤ hwm * (1 - 1 / 10))

/-- The metrics dict returned by `run_backtest` on its (unreachable)
success path: CAGR, Sharpe Ratio, Max Drawdown. -/
structure BTMetrics where
  cagr : ℚ
  sharpe : ℚ
  maxDrawdown : ℚ
deriving Repr, DecidableEq

/-- Broker/strategy state while `cerebro.run()` replays the bars:
cash, held size, last executed buy price, and the order submitted on
the previous bar (backtrader market orders fill at the NEXT bar's
open; `notify_order` then records the executed price and clears
`self.order`). -/
structure SimState where
  cash : ℚ
  size : ℕ
  buy_price : ℚ
  pending : StratAction
deriving Repr, DecidableEq

/-- Commission rate set by `cerebro.broker.setcommission(commission=0.001)`. -/
def commissionRate : ℚ := 1 / 1000

/-- Fill the order submitted on the previous bar at this bar's open
(backtrader's default market-order execution), with the flat 0.1%
commission and the default fixed stake of 1 share. -/
def fillPending (s : SimState) (openPrice : ℚ) : SimState :=
  match s.pending with
  | .buyOrder =>
    { s with cash := s.cash - openPrice - commissionRate * openPrice,
             size := s.size + 1, buy_price := openPrice, pending := .noAction }
  | .sellOrder =>
    { s with cash := s.cash + openPrice - commissionRate * openPrice,
             size := s.size - 1, pending := .noAction }
  | .noAction => s

/-- One replayed bar: fill any pending order at the open, append the
close to the seen series, and when both indicators have their minimum
period run `CANSLIMStrategy.next` to decide this bar's order. -/
def simStep (s : SimState) (seen : List ℚ) (bar : Bar) : SimState × List ℚ :=
  let s1 := fillPending s bar.Open
  let seen1 := seen ++ [bar.Close]
  match smaLast 200 seen1, highestLast 252 seen1 with
  | some sma, some hh =>
    let act := canslimNext ⟨s1.size != 0, s1.buy_price, s1.pending != .noAction⟩
      bar.Close sma hh (7 / 100) (1 / 10)
    ({ s1 with pending := act }, seen1)
  | _, _ => (s1, seen1)

/-- Replay all bars through `simStep`. -/
def runBars : SimState → List ℚ → List Bar → SimState
  | s, _, [] => s
  | s, seen, b :: bs =>
    let p := simStep s seen b
    runBars p.1 p.2 bs

/-- Models `cerebro.run()` followed by `cerebro.broker.getvalue()`
(utils.py lines 214-223): final cash plus the held size marked at the
last close.  Starting cash 100000 per `set_cash`. -/
def simulateCerebro (bars : List Bar) : ℚ :=
  let s := runBars ⟨100000, 0, 0, .noAction⟩ [] bars
  s.cash + s.size * (((bars.map Bar.Close).getLast?).getD 0)

/-- utils.py line 226: `cerebro.analyzers.getbyname('pnl')`.
`Cerebro` keeps the analyzers added through `addanalyzer` in a plain
Python list, and `run_backtest` never calls `addanalyzer` at all; a
list has no `getbyname` attribute, so this evaluation raises
unconditionally (and the later `results[0].analyzers.sharperatio` /
`.drawdown` lookups at lines 231-232 would fail as well, since no
analyzer named `sharperatio` or `drawdown` was ever attached). -/
def analyzersGetbyname : Except String Unit :=
  Except.error "AttributeError: list object has no attribute getbyname"

/-- The body of `run_backtest` (utils.py lines 205-238), i.e. the code
inside its `try`.  With an empty bar list, building the DataFrame
leaves no columns and line 207 (`df['Date']`) raises `KeyError`;
otherwise fewer than 252 bars return `None` (line 212); otherwise the
engine runs to completion, line 225 computes the CAGR from the final
value (consumed only later), and line 226 raises. -/
def runBacktestBody (bars : List Bar) : Except String (Option BTMetrics) :=
  if bars.isEmpty then Except.error "KeyError: Date"
  else if bars.length < 252 then Except.ok none
  else
    let _finalValue := simulateCerebro bars
    match analyzersGetbyname with
    | Except.error e => Except.error e
    | Except.ok _ => Except.error "unreachable continuation of line 226"

/-- utils.py lines 203-241: `run_backtest` with its `try/except`.  Any
exception from the body is caught, logged with the ticker, and turned
into `None`. -/
def run_backtest (ticker : String) (bars : List Bar) :
    Option BTMetrics × Option LogEntry :=
  match runBacktestBody bars with
  | Except.ok r => (r, none)
  | Except.error e => (none, some ⟨ticker, "Backtest failed: " ++ e⟩)

/-- One entry of `paper_portfolio.json`'s `positions` list, as built
by the buy handler (app.py lines 319-325): ticker, buy date, buy
price, share count, last seen price. -/
structure Position where
  ticker : String
  buy_date : String
  buy_price : ℚ
  shares : ℕ
  current_price : ℚ
deriving Repr, DecidableEq

/-- The paper portfolio: cash plus the position list. -/
structure Portfolio where
  cash : ℚ
  positions : List Position
deriving Repr, DecidableEq

/-- Outcome reported by the `Buy in Paper Portfolio` handler. -/
inductive BuyOutcome
  | noDataB
  | errorLoggedB (msg : String)
  | criteriaFailB
  | insufficientCashB
  | boughtB
deriving Repr, DecidableEq

/-- app.py lines 302-334: the `Buy in Paper Portfolio` handler, given
the fetched data's bar list (`none` when no data could be fetched,
line 306) and the requested share count.  Inside the `try`, line 311
evaluates `talib.SMA(...)` — but app.py never imports `talib`, so for
any nonempty bar list a `NameError` is raised there (with an empty bar
list, line 310's `iloc[-1]` raises `IndexError` first); the `except`
at line 331 logs the error, and in every case the portfolio is left
untouched.  The cash check and position append at lines 315-325 are
unreachable. -/
def buyHandler (p : Portfolio) (data : Option (List Bar)) (_buyShares : ℕ) :
    Portfolio × BuyOutcome :=
  match data with
  | none => (p, .noDataB)
  | some hist =>
    if hist.isEmpty then
      (p, .errorLoggedB "IndexError: single positional indexer is out-of-bounds")
    else
      (p, .errorLoggedB "NameError: name talib is not defined")

/-- A float comparison against a possibly-NaN operand on the right of
`>`: pandas yields `False` when either operand is NaN (modelled by
`none`). -/
def gtOpt (x : ℚ) (y : Option ℚ) : Bool :=
  match y with
  | none => false
  | some v => decide (x > v)

/-- app.py lines 309-325 as written, with `talib.SMA` read as the
200-period simple moving average it names — the behaviour the buy
handler would have were `talib` imported.  A `none` indicator value
models the NaN that `iloc[-1]` yields below the lookback, whose
comparison is `False`.  Note the success path APPENDS a fresh
`Position`; a second buy of an already-held ticker yields a second
entry, with no weighted-average merge anywhere. -/
def buyResolved (p : Portfolio) (ticker : String) (hist : List Bar)
    (buyShares : ℕ) (buyDate : String) : Portfolio × BuyOutcome :=
  let closes := hist.map Bar.Close
  let current_price := ((closes.getLast?).getD 0)
  let sma200 := smaLast 200 closes
  let high52 := highestLast 252 (hist.map Bar.High)
  if gtOpt current_price sma200 && gtOpt current_price high52 then
    let cost := current_price * buyShares
    if cost > p.cash then (p, .insufficientCashB)
    else
      ({ cash := p.cash - cost,
         positions := p.positions ++
           [⟨ticker, buyDate, current_price, buyShares, current_price⟩] },
       .boughtB)
  else (p, .criteriaFailB)

/-- Outcome of one iteration of the portfolio update (revalue) loop. -/
inductive RevalueOutcome
  | keptNoPriceR
  | keptNoDataR
  | keptAfterErrorR (msg : String)
  | autoSoldR
  | keptR
deriving Repr, DecidableEq

/-- app.py lines 240-272: one iteration of the portfolio update loop
over a position.  `currentPrice` models the 1-day yfinance fetch at
lines 243-247 (`none` = empty history, position kept); `recentHist`
models the stored/cached record at line 249 (`none` = missing,
position kept).  When both are present, line 252 evaluates
`talib.SMA(...)` — but app.py never imports `talib`, so a `NameError`
is raised before the sell conditions at lines 255-257 can be read; the
`except` at line 268 logs it and appends the position unchanged.
Hence no position is ever auto-exited, no cash is ever credited, and
even `current_price` is never updated.  Returns (kept position or
`none` if sold, cash credited, outcome). -/
def revalueStep (pos : Position) (currentPrice : Option ℚ)
    (recentHist : Option (List Bar)) : Option Position × ℚ × RevalueOutcome :=
  match currentPrice with
  | none => (some pos, 0, .keptNoPriceR)
  | some _ =>
    match recentHist with
    | none => (some pos, 0, .keptNoDataR)
    | some _ => (some pos, 0, .keptAfterErrorR "NameError: name talib is not defined")

/-- The sell condition of app.py lines 255-257 as written, with
`talib.SMA` read as the 200-period simple moving average it names —
unreachable in app.py itself (see `revalueStep`), recorded for
comparison with the specified LONG→FLAT rule: it tests
`current_price < buy_price*(1-0.07)`, `current_price < SMA200` of the
closes, and `current_price <` the 252-bar rolling max of the HIGHS;
there is no per-position high-water-mark and no trailing 10% stop. -/
def revalueSellCondResolved (pos : Position) (current_price : ℚ)
    (hist : List Bar) : Bool :=
  decide (current_price < pos.buy_price * (1 - 7 / 100))
    || ltOpt current_price (smaLast 200 (hist.map Bar.Close))
    || ltOpt current_price (highestLast 252 (hist.map Bar.High))

/-- Outcome reported by the `Sell in Paper Portfolio` handler. -/
inductive SellOutcome
  | notFoundS
  | notEnoughS
  | noPriceS
  | soldS
deriving Repr, DecidableEq

/-- app.py lines 341-365: the loop of the `Sell in Paper Portfolio`
handler over the position list, acting on the FIRST position whose
ticker matches and then breaking.  On that position: more shares
requested than held → error, nothing changed; no current price
fetchable (`none`) → error, nothing changed; otherwise cash is
credited with `sell_price * sell_shares`, the position's share count
is decremented, and the position is removed when it reaches 0.  The
`for`'s `else` (line 366) reports `Position not found`. -/
def sellLoop (cash : ℚ) (positions : List Position) (ticker : String)
    (sellShares : ℕ) (price : Option ℚ) : ℚ × List Position × SellOutcome :=
  match positions with
  | [] => (cash, [], .notFoundS)
  | pos :: rest =>
    if pos.ticker = ticker then
      if sellShares > pos.shares then (cash, pos :: rest, .notEnoughS)
      else
        match price with
        | none => (cash, pos :: rest, .noPriceS)
        | some pr =>
          let cash1 := cash + pr * sellShares
          let pos1 := { pos with shares := pos.shares - sellShares }
          if pos1.shares = 0 then (cash1, rest, .soldS)
          else (cash1, pos1 :: rest, .soldS)
    else
      let r := sellLoop cash rest ticker sellShares price
      (r.1, pos :: r.2.1, r.2.2)

/-- The `Sell in Paper Portfolio` handler at the portfolio level. -/
def sellHandler (p : Portfolio) (ticker : String) (sellShares : ℕ)
    (price : Option ℚ) : Portfolio × SellOutcome :=
  let r := sellLoop p.cash p.positions ticker sellShares price
  (⟨r.1, r.2.1⟩, r.2.2)

/-- First position in the list whose ticker matches (the one the sell
loop acts on). -/
def firstMatch (positions : List Position) (ticker : String) : Option Position :=
  positions.find? (fun pos => pos.ticker == ticker)

/-- A flat sample bar (all prices 10), for concrete evaluations. -/
def bar10 : Bar := ⟨10, 10, 10, 10, 1000⟩

/-- A flat sample bar (all prices 50), for concrete evaluations. -/
def bar50 : Bar := ⟨50, 50, 50, 50, 1000⟩

/-- A close series of 252 bars: 251 closes at 10 followed by one at 11
(a fresh 252-bar closing high, above the 200-bar mean). -/
def exCloses : List ℚ := List.replicate 251 10 ++ [11]

/-- The matching High series: every bar's high is 20, well above every
close. -/
def exHighs : List ℚ := List.replicate 252 20

/-- A fundamentals snapshot with the given eps growth, ROE and market
cap and every other field inert. -/
def mkFund (e r m : Option ℚ) : Fundamentals :=
  ⟨e, r, m, "Technology", none, none, none, none⟩

/-- A stock-data dict with a `hist` key but no `fundamentals` key:
reading `data['fundamentals']` raises. -/
def badD : StockData := ⟨some [], none⟩

/-- A stock-data dict with an empty bar list and inert fundamentals. -/
def shortD : StockData := ⟨some [], some (mkFund none none none)⟩

/-- A one-position portfolio: 100 cash, 10 shares of A bought at 50. -/
def p1 : Portfolio := ⟨100, [⟨"A", "d", 50, 10, 50⟩]⟩

set_option maxRecDepth 40000

lemma foldl_max_replicate (c a : ℚ) (k : ℕ) :
    List.foldl max c (List.replicate k a) = if k = 0 then c else max c a := by
  induction k generalizing c with
  | zero => simp
  | succ n ih =>
    simp only [List.replicate_succ, List.foldl_cons, ih]
    rcases Nat.eq_zero_or_pos n with h | h
    · simp [h]
    · simp only [if_neg (Nat.pos_iff_ne_zero.mp h), if_neg (Nat.succ_ne_zero n)]
      rw [max_assoc, max_self]

lemma max?_replicate_append (k : ℕ) (a b : ℚ) :
    (List.replicate (k + 1) a ++ [b]).max? = some (max a b) := by
  rw [List.replicate_succ, List.cons_append]
  show some (List.foldl max a (List.replicate k a ++ [b])) = some (max a b)
  rw [List.foldl_append, foldl_max_replicate]
  rcases Nat.eq_zero_or_pos k with h | h
  · simp [h]
  · simp [Nat.pos_iff_ne_zero.mp h]

lemma max?_replicate (k : ℕ) (a : ℚ) :
    (List.replicate (k + 1) a).max? = some a := by
  rw [List.replicate_succ]
  show some (List.foldl max a (List.replicate k a)) = some a
  rw [foldl_max_replicate]
  split <;> simp

lemma exCloses_length : exCloses.length = 252 := by simp [exCloses]

lemma exCloses_sma : smaLast 200 exCloses = some (2001 / 200) := by
  rw [smaLast, if_neg (by rw [exCloses_length]; norm_num)]
  rw [exCloses_length]
  show some ((exCloses.drop 52).sum / 200) = _
  have h : exCloses.drop 52 = List.replicate 199 10 ++ [11] := by
    rw [exCloses, List.drop_append_of_le_length (by simp), List.drop_replicate]
  rw [h, List.sum_append]
  norm_num [List.sum_replicate]

lemma exCloses_highest : highestLast 252 exCloses = some 11 := by
  rw [highestLast, if_neg (by rw [exCloses_length]; norm_num)]
  rw [exCloses_length]
  show (exCloses.drop 0).max? = _
  rw [List.drop_zero, exCloses]
  have h : (250 : ℕ) + 1 = 251 := by norm_num
  rw [← h, max?_replicate_append]
  norm_num

lemma exHighs_highest : highestLast 252 exHighs = some 20 := by
  rw [highestLast, if_neg (by simp [exHighs])]
  have h : exHighs.length = 252 := by simp [exHighs]
  rw [h]
  show (exHighs.drop 0).max? = _
  rw [List.drop_zero, exHighs]
  have h2 : (251 : ℕ) + 1 = 252 := by norm_num
  rw [← h2, max?_replicate]

lemma exCloses_last : exCloses.getLast? = some 11 := by
  rw [exCloses, List.getLast?_concat]

lemma epsPoints_cases (f : Fundamentals) : epsPoints f = 0 ∨ epsPoints f = 40 := by
  rw [epsPoints]
  rcases f.eps_growth with _ | v
  · exact Or.inl rfl
  · dsimp only
    split
    · exact Or.inr rfl
    · exact Or.inl rfl

lemma roePoints_cases (f : Fundamentals) : roePoints f = 0 ∨ roePoints f = 30 := by
  rw [roePoints]
  rcases f.roe with _ | v
  · exact Or.inl rfl
  · dsimp only
    split
    · exact Or.inr rfl
    · exact Or.inl rfl

lemma capPoints_cases (f : Fundamentals) :
    capPoints f = 0 ∨ capPoints f = 5 ∨ capPoints f = 10 := by
  rw [capPoints]
  rcases f.market_cap with _ | v
  · exact Or.inl rfl
  · dsimp only
    split
    · split
      · exact Or.inr (Or.inr rfl)
      · split
        · exact Or.inr (Or.inl rfl)
        · exact Or.inl rfl
    · exact Or.inl rfl

lemma sellLoop_split (cash : ℚ) (tk : String) (n : ℕ) (pr : ℚ) :
    ∀ (pre : List Position) (pos : Position) (post : List Position),
      (∀ q ∈ pre, q.ticker ≠ tk) → pos.ticker = tk →
      sellLoop cash (pre ++ pos :: post) tk n (some pr) =
        if n > pos.shares then (cash, pre ++ pos :: post, SellOutcome.notEnoughS)
        else (cash + pr * n,
          pre ++ (if pos.shares - n = 0 then post
                  else { pos with shares := pos.shares - n } :: post),
          SellOutcome.soldS) := by
  intro pre
  induction pre with
  | nil =>
    intro pos post _ hpos
    rw [List.nil_append, sellLoop, if_pos hpos]
    split
    · simp
    · split <;> simp_all
  | cons q pre' ih =>
    intro pos post hpre hpos
    have hq : q.ticker ≠ tk := hpre q (by simp)
    rw [List.cons_append, sellLoop]
    rw [if_neg hq]
    rw [ih pos post (fun r hr => hpre r (by simp [hr])) hpos]
    split
    · simp
    · split <;> simp_all

/-- C1.  The claim says the trailing-stop exit (LONG → FLAT) fires
exactly when close ≤ high-water-mark × (1 − 0.10).  In the code
(utils.py line 200) the trailing branch compares the close with the
close itself times 0.9 and no high-water-mark is tracked, so it never
fires: in LONG with buy price 100, highest close since entry 150 and
current close 130 the claimed condition holds (130 ≤ 135) and the hard
stop does not (130 > 93), yet `next` takes no action. -/
theorem trailing_stop_never_fires_eval :
    canslimNext ⟨true, 100, false⟩ 130 120 140 (7 / 100) (1 / 10) =
      StratAction.noAction ∧
    specLongExit 100 150 130 = true ∧
    ¬ ((130 : ℚ) ≤ 100 * (1 - 7 / 100)) := by
  refine ⟨?_, ?_, by norm_num⟩
  · simp only [canslimNext]
    norm_num
  · simp only [specLongExit]
    norm_num

/-- C2.  The claim says a ≥252-bar series yields a result with CAGR,
Sharpe and Max Drawdown.  The code never registers the analyzers it
later looks up by name, so the lookup at utils.py line 226 raises, the
handler logs and `run_backtest` returns None: evaluated here on 252
identical bars. -/
theorem backtest_metrics_never_returned_eval :
    run_backtest "TEST" (List.replicate 252 bar10) =
      (none, some ⟨"TEST", "Backtest failed: " ++
        "AttributeError: list object has no attribute getbyname"⟩) := by
  have h1 : (List.replicate 252 bar10).isEmpty = false := rfl
  have h2 : (List.replicate 252 bar10).length = 252 := by simp
  simp only [run_backtest, runBacktestBody, analyzersGetbyname, h1, h2]
  norm_num

/-- C3, counterexample.  The claim says a buy with shares×price ≤ cash
debits cash and creates (or merges) a Position: buying 10 shares at
price 50 from 100,000 cash should leave 99,500 and one Position.  In
the code the handler's criteria check references `talib`, which app.py
never imports, so the attempt raises, is caught, and the portfolio is
left with its original cash and no position at all. -/
theorem buy_claim_counterexample :
    buyHandler ⟨100000, []⟩ (some [bar50]) 10 =
      (⟨100000, []⟩, BuyOutcome.errorLoggedB "NameError: name talib is not defined") ∧
    ¬ ((100000 : ℚ) = 100000 - 10 * 50) := by
  exact ⟨rfl, by norm_num⟩

/-- C3, amended.  Every `Buy in Paper Portfolio` attempt leaves the
portfolio exactly as it was and never reports a completed purchase:
the handler dies on the unresolved `talib` name (or on indexing an
empty history) before any cash check or position change. -/
theorem buy_handler_leaves_portfolio_unchanged :
    ∀ (p : Portfolio) (data : Option (List Bar)) (n : ℕ),
      (buyHandler p data n).1 = p ∧ (buyHandler p data n).2 ≠ BuyOutcome.boughtB := by
  intro p data n
  rcases data with _ | hist
  · exact ⟨rfl, by simp [buyHandler]⟩
  · rw [buyHandler]
    split <;> simp

/-- C4, counterexample.  The claim says a position is auto-exited
during revalue exactly when the LONG→FLAT rule holds for it.  For a
position bought at 100 now quoted at 80 the rule's hard stop holds
(80 ≤ 93), yet the update loop raises on the unresolved `talib` name,
catches it, and keeps the position unchanged. -/
theorem revalue_stop_loss_not_applied :
    revalueStep ⟨"X", "d", 100, 10, 100⟩ (some 80) (some [bar50]) =
      (some ⟨"X", "d", 100, 10, 100⟩, 0,
        RevalueOutcome.keptAfterErrorR "NameError: name talib is not defined") ∧
    specLongExit 100 100 80 = true := by
  refine ⟨rfl, ?_⟩
  simp only [specLongExit]
  norm_num

/-- C4, amended.  The revalue loop never auto-exits any position: the
position is always retained, no cash is ever credited, and the
auto-sold outcome is unreachable (the sell-condition code raises
`NameError` on `talib` and the handler keeps the position). -/
theorem revalue_never_auto_exits :
    ∀ (pos : Position) (cp : Option ℚ) (rh : Option (List Bar)),
      (revalueStep pos cp rh).1 = some pos ∧
      (revalueStep pos cp rh).2.1 = 0 ∧
      (revalueStep pos cp rh).2.2 ≠ RevalueOutcome.autoSoldR := by
  intro pos cp rh
  rcases cp with _ | c <;> rcases rh with _ | h <;> simp [revalueStep]

/-- C5, counterexample.  The claim lists 65 among the attainable
fundamental scores, but the additive rule only produces sums of
{0,40} + {0,30} + {0,5,10}, and no such sum equals 65. -/
theorem f_score_sixty_five_unattainable :
    ¬ ∃ f : Fundamentals, f_score f = 65 := by
  rintro ⟨f, hf⟩
  rw [f_score] at hf
  rcases epsPoints_cases f with h1 | h1 <;> rcases roePoints_cases f with h2 | h2 <;>
    rcases capPoints_cases f with h3 | h3 | h3 <;> omega

/-- C5, amended.  The fundamental score always lies in
{0,5,10,30,35,40,45,50,70,75,80} (65 removed from the claimed set),
and every value of that set is attained by some snapshot. -/
theorem f_score_range_and_attainability :
    (∀ f : Fundamentals, f_score f ∈ [0, 5, 10, 30, 35, 40, 45, 50, 70, 75, 80]) ∧
    (∃ f, f_score f = 0) ∧ (∃ f, f_score f = 5) ∧ (∃ f, f_score f = 10) ∧
    (∃ f, f_score f = 30) ∧ (∃ f, f_score f = 35) ∧ (∃ f, f_score f = 40) ∧
    (∃ f, f_score f = 45) ∧ (∃ f, f_score f = 50) ∧ (∃ f, f_score f = 70) ∧
    (∃ f, f_score f = 75) ∧ (∃ f, f_score f = 80) := by
  refine ⟨?_, ⟨mkFund none none none, ?_⟩,
    ⟨mkFund none none (some 3000000000), ?_⟩,
    ⟨mkFund none none (some 11000000000), ?_⟩,
    ⟨mkFund none (some (2 / 10)) none, ?_⟩,
    ⟨mkFund none (some (2 / 10)) (some 3000000000), ?_⟩,
    ⟨mkFund (some (3 / 10)) none none, ?_⟩,
    ⟨mkFund (some (3 / 10)) none (some 3000000000), ?_⟩,
    ⟨mkFund (some (3 / 10)) none (some 11000000000), ?_⟩,
    ⟨mkFund (some (3 / 10)) (some (2 / 10)) none, ?_⟩,
    ⟨mkFund (some (3 / 10)) (some (2 / 10)) (some 3000000000), ?_⟩,
    ⟨mkFund (some (3 / 10)) (some (2 / 10)) (some 11000000000), ?_⟩⟩
  · intro f
    rw [f_score]
    rcases epsPoints_cases f with h1 | h1 <;> rcases roePoints_cases f with h2 | h2 <;>
      rcases capPoints_cases f with h3 | h3 | h3 <;> simp [h1, h2, h3]
  all_goals norm_num [f_score, epsPoints, roePoints, capPoints, mkFund]

/-- C6, counterexample.  The claim says entry fires when the close is
at or above the trailing 252-bar maximum of the HIGH values.  On a
series whose closes are 10 (251 bars) then 11 but whose highs are all
20, the code's signal (Highest over the CLOSE line) fires while the
claimed condition (11 ≥ 20) fails. -/
theorem entry_signal_uses_closes_not_highs :
    entrySignalAt exCloses = true ∧ entrySignalSpecHighs exCloses exHighs = false := by
  constructor
  · rw [entrySignalAt, exCloses_last, exCloses_sma, exCloses_highest]
    simp only [decide_eq_true_eq]
    simp only [canslimNext]
    norm_num
  · rw [entrySignalSpecHighs, exCloses_last, exCloses_sma, exHighs_highest]
    simp only [decide_eq_false_iff_not]
    norm_num

/-- C6, amended.  While FLAT (no pending order) the entry fires
exactly when the close is above the 200-bar mean of the closes AND at
or above the trailing 252-bar maximum of the CLOSES (both indicators
are built on the close line, utils.py lines 178-180), once both
windows are full. -/
theorem entry_signal_iff_close_windows :
    ∀ closes : List ℚ, entrySignalAt closes = true ↔
      ∃ c s h, closes.getLast? = some c ∧ smaLast 200 closes = some s ∧
        highestLast 252 closes = some h ∧ s < c ∧ h ≤ c := by
  intro closes
  rw [entrySignalAt]
  rcases hc : closes.getLast? with _ | c <;>
    rcases hs : smaLast 200 closes with _ | s <;>
      rcases hh : highestLast 252 closes with _ | h <;>
        simp [canslimNext, and_assoc]

/-- C7, counterexample.  The claim says the error-log entry written
when `score` catches an exception is keyed by the ticker.  The code
logs with the literal key `N/A` (utils.py line 166) — `calculate_score`
does not even receive the ticker — so for a record of ticker AAPL the
entry is keyed `N/A`, not `AAPL`. -/
theorem score_error_logged_as_na :
    calculate_score badD =
      ((0, 0, 0), some ⟨"N/A", "Error in calculate_score: " ++ "KeyError: fundamentals"⟩) ∧
    ("N/A" : String) ≠ "AAPL" := by
  exact ⟨rfl, by decide⟩

/-- C7, amended.  Any exception raised inside `calculate_score`'s body
is caught there, the result (0,0,0) is returned with an error-log
entry keyed by the literal `N/A` (not the ticker), and nothing
propagates to the caller. -/
theorem score_exceptions_caught_with_na_key :
    ∀ (d : StockData) (e : String), scoreBody d = Except.error e →
      calculate_score d =
        ((0, 0, 0), some ⟨"N/A", "Error in calculate_score: " ++ e⟩) := by
  intro d e h
  rw [calculate_score, h]

/-- Witness for C7's theorem at a concrete malformed record. -/
theorem score_exceptions_caught_witness :
    calculate_score badD =
      ((0, 0, 0), some ⟨"N/A", "Error in calculate_score: " ++ "KeyError: fundamentals"⟩) :=
  score_exceptions_caught_with_na_key badD "KeyError: fundamentals" rfl

/-- C8.  Selling more shares than the (first) matching position holds
rejects the operation and leaves the portfolio unchanged; otherwise
cash is credited with price × shares, the position's share count is
decremented, and the position is removed exactly when it reaches 0. -/
theorem sell_handler_spec :
    ∀ (p : Portfolio) (tk : String) (n : ℕ) (pr : ℚ)
      (pre : List Position) (pos : Position) (post : List Position),
      p.positions = pre ++ pos :: post →
      (∀ q ∈ pre, q.ticker ≠ tk) →
      pos.ticker = tk →
      (pos.shares < n → sellHandler p tk n (some pr) = (p, SellOutcome.notEnoughS)) ∧
      (n ≤ pos.shares →
        sellHandler p tk n (some pr) =
          (⟨p.cash + pr * n,
            pre ++ (if pos.shares - n = 0 then post
                    else { pos with shares := pos.shares - n } :: post)⟩,
           SellOutcome.soldS)) := by
  intro p tk n pr pre pos post hsplit hpre hpos
  obtain ⟨pcash, ppos⟩ := p
  dsimp at hsplit
  subst hsplit
  constructor
  · intro hlt
    rw [sellHandler]
    dsimp only
    rw [sellLoop_split pcash tk n pr pre pos post hpre hpos, if_pos hlt]
  · intro hle
    rw [sellHandler]
    dsimp only
    rw [sellLoop_split pcash tk n pr pre pos post hpre hpos, if_neg (by omega)]

/-- Witness for C8's theorem: on the one-position portfolio `p1`
(10 shares of A at 50, 100 cash), selling 20 shares of A is rejected
with the portfolio unchanged, and selling all 10 at price 70 credits
700 and removes the position. -/
theorem sell_handler_spec_witness :
    sellHandler p1 "A" 20 (some 70) = (p1, SellOutcome.notEnoughS) ∧
    sellHandler p1 "A" 10 (some 70) =
      (⟨p1.cash + 70 * 10, []⟩, SellOutcome.soldS) := by
  constructor
  · exact (sell_handler_spec p1 "A" 20 70 [] ⟨"A", "d", 50, 10, 50⟩ [] rfl
      (by simp) rfl).1 (by norm_num)
  · have h := (sell_handler_spec p1 "A" 10 70 [] ⟨"A", "d", 50, 10, 50⟩ [] rfl
      (by simp) rfl).2 (by norm_num)
    simpa using h

/-- C9.  A record whose bar series is shorter than 200 entries scores
(0,0,0) through the explicit short-circuit at utils.py lines 126-127:
the body returns normally and no error is logged. -/
theorem score_short_series_zero :
    ∀ (d : StockData) (f : Fundamentals) (h : List Bar),
      d.fundamentals = some f → d.hist = some h → h.length < 200 →
      calculate_score d = ((0, 0, 0), none) := by
  intro d f h hf hh hlen
  have hb : scoreBody d = Except.ok (0, 0, 0) := by
    simp [scoreBody, hf, hh, hlen]
  rw [calculate_score, hb]

/-- Witness for C9's theorem at a concrete record with an empty bar
series. -/
theorem score_short_series_zero_witness :
    calculate_score shortD = ((0, 0, 0), none) :=
  score_short_series_zero shortD (mkFund none none none) [] rfl rfl (by simp)

/-- C10.  A well-formed bar series with fewer than 252 bars makes
`run_backtest` return None (no metrics), without an exception
escaping; for a nonempty such series this is the explicit
`len(df) < 252` short-circuit of utils.py lines 211-212, not the
exception handler. -/
theorem backtest_insufficient_data_none :
    ∀ (t : String) (bars : List Bar), bars.length < 252 →
      (run_backtest t bars).1 = none ∧
      (bars ≠ [] → runBacktestBody bars = Except.ok none) := by
  intro t bars hlen
  rcases bars with _ | ⟨b, bs⟩
  · exact ⟨rfl, by simp⟩
  · have hlen' : bs.length + 1 < 252 := by simpa using hlen
    have hbody : runBacktestBody (b :: bs) = Except.ok none := by
      rw [runBacktestBody]
      simp [hlen']
    exact ⟨by rw [run_backtest, hbody], fun _ => hbody⟩

/-- Witness for C10's theorem on a concrete 10-bar series. -/
theorem backtest_insufficient_data_none_witness :
    (run_backtest "T" (List.replicate 10 bar10)).1 = none ∧
    runBacktestBody (List.replicate 10 bar10) = Except.ok none := by
  have h := backtest_insufficient_data_none "T" (List.replicate 10 bar10) (by simp)
  exact ⟨h.1, h.2 (by simp)⟩

end CanSlim
